import Mathlib

/-!
Shallow embedding of the `PaPLogger` logging facade
(`src/pap_logger/__init__.py`), a configurable logger with a console
(`sysout`) `StreamHandler` that is always present, an optional
`TimedRotatingFileHandler` and an optional `SysLogHandler`.

The embedding follows the source file line by line:
* Python `logging` level constants become `Int` constants.
* Each handler becomes a record holding the observable fields the facade
  reads or writes (level, formatter name, address / base filename,
  rotation policy).  `Formatter` objects are tracked by the name of the
  entry of `logging_dict.formatters` they were built from, since the
  code only ever builds them through `_get_formatter_from_dict`.
* The facade object becomes the record `PaPState`.  Membership of a
  handler in `logger.handlers` is tracked by the `*_attached` flags
  (the facade only ever creates one handler of each kind, so a flag is
  enough); the `_logfile_handler` / `_syslog_handler` attributes are the
  `Option` fields, which — exactly as in the source — are *not* cleared
  by `_remove_logfile_handler` / `_remove_syslog_handler`.
* Environment-dependent effects (hostname lookup, DNS/socket
  reachability, filesystem permissions, the validity of the `when`
  rotation spec accepted by `TimedRotatingFileHandler`) are abstracted
  into an `Env` of oracles passed to the operations.
* Exceptions that the source catches are modelled inside the operation
  (the operation stays total and records the `logger.error` diagnostic
  in `errors`); the one exception that escapes a property setter
  (`AttributeError` from `None.parent` in the `logfile_with_hostname`
  setter) is modelled with `Except`.
* `logger.debug` calls and `Handler.close` calls are not tracked: no
  claim mentions them.
-/

namespace PaP

/-! ### Python `logging` level constants -/

def NOTSET : Int := 0
def DEBUG : Int := 10
def INFO : Int := 20
def WARNING : Int := 30
def ERROR : Int := 40
def CRITICAL : Int := 50

/-! ### Paths

`pathlib.Path` is modelled by its parent directory (kept abstract as a
string, the facade never splits it further) and its final name
component.  The source only uses `p.parent`, `p.name` and
`parent / name`, so this pair is a faithful view. -/

structure PPath where
  parent : String
  name : String
deriving DecidableEq, Repr

/-! ### Handlers -/

/-- The `sysout` `StreamHandler` installed by `dictConfig`. -/
structure StreamHandler where
  level : Int
  fmtName : String
deriving DecidableEq, Repr

/-- A `SysLogHandler`.  `address` is the `(host, port)` pair; the host
component is an `Option` because `_update_syslog_handler` copies
`self.syslog_host` verbatim, which can be `None`. -/
structure SyslogHandler where
  address : Option String × Int
  level : Int
  fmtName : String
deriving DecidableEq, Repr

/-- A `TimedRotatingFileHandler`.  `baseFilename` is an `Option`
because `_update_logfile_handler` copies `self.log_file` verbatim.
`rotWhen` and `backupCount` are fixed at construction. -/
structure LogfileHandler where
  baseFilename : Option PPath
  level : Int
  fmtName : String
  rotWhen : String
  backupCount : Int
deriving DecidableEq, Repr

/-! ### Diagnostics and exceptions -/

/-- Diagnostics emitted via `logger.error` by the facade itself (the
messages' interpolated payloads are irrelevant to the claims, only
which diagnostic fired). -/
inductive ErrMsg where
  /-- "Could not create ... : Permission Denied" -/
  | permissionDenied
  /-- "TimedRotatingFileHandler : <ValueError>" -/
  | invalidRotationWhen
  /-- "Could not connect to syslog on host:port" -/
  | syslogConnect
deriving DecidableEq, Repr

/-- Python exceptions that escape a property setter in this code. -/
inductive PyErr where
  /-- The `AttributeError` raised by `None.parent`. -/
  | attributeError
deriving DecidableEq, Repr

/-! ### Environment oracles -/

structure Env where
  /-- Python `socket.gethostname()` -/
  hostname : String
  /-- whether `SysLogHandler(address=(host, port))` succeeds (otherwise
  it raises a `socket.error`) -/
  reachable : String → Int → Bool
  /-- whether a `when` string is accepted by `TimedRotatingFileHandler`
  (otherwise its constructor raises `ValueError`) -/
  validWhen : String → Bool
  /-- whether the parent directory exists/can be created and the log
  file opened there (otherwise `PermissionError`) -/
  writable : String → Bool

/-! ### The facade state -/

/-- The mutable state of a `PaPLogger` object together with the
observable state of the root logger it configures. -/
structure PaPState where
  /-- Field `self._level` (a placeholder `0` stands for the pre-init `None`,
  which is never read) -/
  level : Int
  /-- Field `self._verbose_fmt` -/
  verbose_fmt : Bool
  /-- Field `self._logfile_with_hostname` -/
  logfile_with_hostname : Bool
  /-- Field `self._when` -/
  rotWhen : String
  /-- Field `self._backup_count` -/
  backup_count : Int
  /-- Field `self._log_file` -/
  log_file : Option PPath
  /-- Field `self._syslog_host` -/
  syslog_host : Option String
  /-- Field `self._syslog_port` -/
  syslog_port : Int
  /-- Field `self._sysout_handler` (always present after `__init__`, which
  asserts it) -/
  sysout_handler : StreamHandler
  /-- Field `self._logfile_handler` -/
  logfile_handler : Option LogfileHandler
  /-- Field `self._syslog_handler` -/
  syslog_handler : Option SyslogHandler
  /-- whether `self._logfile_handler` is in `logger.handlers` -/
  logfile_attached : Bool
  /-- whether `self._syslog_handler` is in `logger.handlers` -/
  syslog_attached : Bool
  /-- the root logger's own level (`getEffectiveLevel`) -/
  logger_level : Int
  /-- Diagnostics logged via `logger.error` so far, most recent first -/
  errors : List ErrMsg
deriving DecidableEq, Repr

/-! ### Internal update helpers, one per `_update_* / _add_* / _remove_*`
method of the source -/

/-- The format name chosen by `_update_sysout_formatter`:
`'logfile' if (self.verbose_fmt or self.level < WARNING) else 'simple'`. -/
def sysout_fmt_name (verbose : Bool) (level : Int) : String :=
  if verbose || level < WARNING then "logfile" else "simple"

/-- The same selection in the second variant of the source
(`src/__init__.py`, line 220), which uses `<=` instead of `<`:
`'logfile' if (self.verbose_fmt or self.level <= logging.WARNING) else 'simple'`. -/
def sysout_fmt_name_v2 (verbose : Bool) (level : Int) : String :=
  if verbose || level ≤ WARNING then "logfile" else "simple"

/-- Method `_update_sysout_formatter` (the `if self._sysout_handler` guard is
always true after `__init__`, which asserts the handler exists). -/
def update_sysout_formatter (s : PaPState) : PaPState :=
  { s with sysout_handler :=
      { s.sysout_handler with fmtName := sysout_fmt_name s.verbose_fmt s.level } }

/-- Method `_update_logger_level` -/
def update_logger_level (s : PaPState) : PaPState :=
  if s.level ≠ s.logger_level then { s with logger_level := s.level } else s

/-- Method `_update_sysout_level` -/
def update_sysout_level (s : PaPState) : PaPState :=
  if s.sysout_handler.level ≠ s.level then
    { s with sysout_handler := { s.sysout_handler with level := s.level } }
  else s

/-- Method `_update_syslog_handler`: update the address tuple in place; the
handler's level is untouched. -/
def update_syslog_handler (s : PaPState) : PaPState :=
  match s.syslog_handler with
  | none => s
  | some h =>
    { s with syslog_handler := some { h with address := (s.syslog_host, s.syslog_port) } }

/-- Method `_remove_syslog_handler`: `logger.removeHandler` detaches the
handler but the method does **not** clear `self._syslog_handler`. -/
def remove_syslog_handler (s : PaPState) : PaPState :=
  match s.syslog_handler with
  | none => s
  | some _ => { s with syslog_attached := false }

/-- Method `_add_syslog_handler`: construct a `SysLogHandler` bound to
`(self.syslog_host, self.syslog_port)` (which can raise
`socket.error`, modelled as `Except.error`), set its level to
`WARNING`, give it the `'syslog'` formatter, attach it. -/
def add_syslog_handler (env : Env) (s : PaPState) : Except Unit PaPState :=
  match s.syslog_host with
  | none => .ok s  -- unreachable from the setters, which store the host first
  | some host =>
    if env.reachable host s.syslog_port then
      let h : SyslogHandler :=
        { address := (s.syslog_host, s.syslog_port)
          level := WARNING
          fmtName := "syslog" }
      .ok { s with syslog_handler := some h, syslog_attached := true }
    else .error ()

/-- The format name chosen by `_update_logfile_formatter`. -/
def logfile_fmt_name (withHost : Bool) : String :=
  if withHost then "logfile_with_host" else "logfile"

/-- Method `_update_logfile_formatter` -/
def update_logfile_formatter (s : PaPState) : PaPState :=
  match s.logfile_handler with
  | none => s
  | some h =>
    let h := { h with fmtName := logfile_fmt_name s.logfile_with_hostname }
    { s with logfile_handler := some h }

/-- Method `_update_logfile_handler`: re-apply the level if it differs, and
repoint `baseFilename` at `self.log_file` if it differs. -/
def update_logfile_handler (s : PaPState) : PaPState :=
  match s.logfile_handler with
  | none => s
  | some h =>
    let h := if h.level ≠ s.level then { h with level := s.level } else h
    let h := if h.baseFilename ≠ s.log_file then { h with baseFilename := s.log_file } else h
    { s with logfile_handler := some h }

/-- Method `_remove_logfile_handler`: detaches the handler but does **not**
clear `self._logfile_handler`. -/
def remove_logfile_handler (s : PaPState) : PaPState :=
  match s.logfile_handler with
  | none => s
  | some _ => { s with logfile_attached := false }

/-- Method `_add_logfile_handler`: the `TimedRotatingFileHandler` constructor
raises `ValueError` on an invalid `when`; that error is caught *inside*
this method, logged with `logger.error`, and the method returns with no
handler created.  On success the handler level is set to `DEBUG`, the
formatter applied via `_update_logfile_formatter`, and the handler
attached. -/
def add_logfile_handler (env : Env) (s : PaPState) : PaPState :=
  match s.log_file with
  | none => s  -- unreachable from the setters, which store the path first
  | some p =>
    if env.validWhen s.rotWhen then
      let h : LogfileHandler :=
        { baseFilename := some p
          level := DEBUG
          fmtName := "logfile"
          rotWhen := s.rotWhen
          backupCount := s.backup_count }
      update_logfile_formatter
        { s with logfile_handler := some h, logfile_attached := true }
    else
      { s with errors := .invalidRotationWhen :: s.errors }

/-! ### Property setters -/

/-- The `level` property setter. -/
def set_level (v : Int) (s : PaPState) : PaPState :=
  let s := { s with level := v }
  let s := update_sysout_formatter s
  let s := update_logger_level s
  let s := update_sysout_level s
  let s := if s.syslog_handler.isSome then update_syslog_handler s else s
  let s := if s.logfile_handler.isSome then update_logfile_handler s else s
  s

/-- The `verbose_fmt` property setter. -/
def set_verbose_fmt (v : Bool) (s : PaPState) : PaPState :=
  update_sysout_formatter { s with verbose_fmt := v }

/-- The `log_file` property setter.  `PermissionError` from directory
creation or from opening the log file is caught and logged; `ValueError`
from an invalid `when` is caught inside `_add_logfile_handler`.  The
setter never raises. -/
def set_log_file (env : Env) (value : Option PPath) (s : PaPState) : PaPState :=
  match value with
  | none =>
    let s := remove_logfile_handler s
    { s with log_file := none }
  | some p =>
    let s := { s with log_file := some p }
    if env.writable p.parent then
      if s.logfile_handler.isNone then add_logfile_handler env s
      else update_logfile_handler s
    else
      { s with errors := .permissionDenied :: s.errors }

/-- The Python filename built by `f"{gethostname()}_{self.log_file.name}"`. -/
def prefixName (host n : String) : String :=
  host ++ "_" ++ n

/-- Left-to-right, non-overlapping replacement of every occurrence of
`pat` by `rep`, with explicit fuel; mirrors Python `str.replace`.
(Python inserts `rep` between characters when `pat` is empty; the
facade only ever replaces the nonempty `f"{gethostname()}_"`.) -/
def replaceAllAux (pat rep : List Char) : Nat → List Char → List Char
  | _, [] => []
  | 0, s => s
  | fuel + 1, c :: rest =>
    if pat <+: (c :: rest) ∧ pat ≠ [] then
      rep ++ replaceAllAux pat rep fuel (List.drop (pat.length - 1) rest)
    else
      c :: replaceAllAux pat rep fuel rest

/-- Python `s.replace(pat, rep)` for nonempty `pat`. -/
def replaceAll (pat rep s : List Char) : List Char :=
  replaceAllAux pat rep s.length s

/-- The Python filename built by
`self.log_file.name.replace(f"{gethostname()}_", "")`: note it strips
*every* occurrence of `"<hostname>_"`, not only a leading one. -/
def stripName (host n : String) : String :=
  ⟨replaceAll (host ++ "_").data [] n.data⟩

/-- The `logfile_with_hostname` property setter.  When the value
changes, both branches evaluate `self.log_file.parent`, so when no log
file is set an `AttributeError` (`None.parent`) escapes before any
state is mutated.  Otherwise the derived path is pushed through the
`log_file` setter (with the *old* flag still in force), then the flag
is stored and `_update_logfile_formatter` re-applied. -/
def set_logfile_with_hostname (env : Env) (v : Bool) (s : PaPState) :
    Except PyErr PaPState :=
  if v ≠ s.logfile_with_hostname then
    match s.log_file with
    | none => .error .attributeError
    | some p =>
      let s :=
        if !s.logfile_with_hostname && v then
          set_log_file env (some ⟨p.parent, prefixName env.hostname p.name⟩) s
        else
          set_log_file env (some ⟨p.parent, stripName env.hostname p.name⟩) s
      .ok (update_logfile_formatter { s with logfile_with_hostname := v })
  else .ok s

/-- The `syslog_host` property setter.  `socket.error` from
`_add_syslog_handler` is caught and logged; the setter never raises. -/
def set_syslog_host (env : Env) (value : Option String) (s : PaPState) : PaPState :=
  match value with
  | none =>
    let s := remove_syslog_handler s
    { s with syslog_host := none }
  | some host =>
    let s := { s with syslog_host := some host }
    if s.syslog_handler.isNone then
      match add_syslog_handler env s with
      | .ok s' => s'
      | .error _ => { s with errors := .syslogConnect :: s.errors }
    else update_syslog_handler s

/-- The `syslog_port` property setter. -/
def set_syslog_port (v : Int) (s : PaPState) : PaPState :=
  let s := { s with syslog_port := v }
  if s.syslog_handler.isSome then update_syslog_handler s else s

/-! ### Construction -/

/-- Constructor `PaPLogger.__init__`: `dictConfig` installs the `sysout` handler
(level unset = `NOTSET`, formatter `'simple'`) on the root logger
(level `WARNING`); the assertion that a handler exists succeeds, then
the `level` property setter runs with
`level if level != NOTSET else WARNING`, followed by one more round of
formatter / logger-level / sysout-level updates (idempotent). -/
def init (level : Int) (verbose_fmt logfile_with_hostname : Bool)
    (rotWhen : String) (backup_count : Int) : PaPState :=
  let s : PaPState :=
    { level := 0
      verbose_fmt := verbose_fmt
      logfile_with_hostname := logfile_with_hostname
      rotWhen := rotWhen
      backup_count := backup_count
      log_file := none
      syslog_host := none
      syslog_port := 514
      sysout_handler := { level := NOTSET, fmtName := "simple" }
      logfile_handler := none
      syslog_handler := none
      logfile_attached := false
      syslog_attached := false
      logger_level := WARNING
      errors := [] }
  let s := set_level (if level ≠ NOTSET then level else WARNING) s
  let s := update_sysout_formatter s
  let s := update_logger_level s
  let s := update_sysout_level s
  s

/-- Construction `PaPLogger()` with all defaults
(`level=NOTSET, verbose_fmt=False, logfile_with_hostname=False, when='D', backup_count=15`). -/
def initDefault : PaPState :=
  init NOTSET false false "D" 15

end PaP

namespace PaP

/-! ### Operations, for quantifying over arbitrary call sequences -/

/-- One public mutation of the facade (a property assignment).  For the
one setter that can raise (`logfile_with_hostname` on a facade with no
log file), the exception escapes before any state is mutated, so the
post-state of the failing call is the pre-state. -/
inductive Op where
  | setLevel (v : Int)
  | setVerboseFmt (v : Bool)
  | setLogfileWithHostname (v : Bool)
  | setLogFile (p : Option PPath)
  | setSyslogHost (h : Option String)
  | setSyslogPort (v : Int)

/-- Apply one property assignment. -/
def Op.apply (env : Env) (op : Op) (s : PaPState) : PaPState :=
  match op with
  | .setLevel v => set_level v s
  | .setVerboseFmt v => set_verbose_fmt v s
  | .setLogfileWithHostname v =>
    match set_logfile_with_hostname env v s with
    | .ok s' => s'
    | .error _ => s
  | .setLogFile p => set_log_file env p s
  | .setSyslogHost h => set_syslog_host env h s
  | .setSyslogPort v => set_syslog_port v s

/-- Apply a sequence of property assignments, left to right. -/
def run (env : Env) (ops : List Op) (s : PaPState) : PaPState :=
  ops.foldl (fun s op => op.apply env s) s

/-! ### Unfolding equations for the update helpers -/

theorem update_sysout_formatter_eq (s : PaPState) :
    update_sysout_formatter s =
      { s with sysout_handler :=
          { s.sysout_handler with fmtName := sysout_fmt_name s.verbose_fmt s.level } } :=
  rfl

theorem update_logger_level_eq (s : PaPState) :
    update_logger_level s =
      { s with logger_level := if s.level ≠ s.logger_level then s.level else s.logger_level } := by
  unfold update_logger_level
  split <;> rfl

theorem update_sysout_level_eq (s : PaPState) :
    update_sysout_level s =
      { s with sysout_handler := { s.sysout_handler with level := s.level } } := by
  unfold update_sysout_level
  split
  · rfl
  · rename_i h
    have h' : s.sysout_handler.level = s.level := by omega
    obtain ⟨lv, vf, hn, w, bc, lf, sh, sp, so, lfh, slh, la, sa, ll, errs⟩ := s
    obtain ⟨sol, sof⟩ := so
    simp_all

theorem update_syslog_handler_eq (s : PaPState) :
    update_syslog_handler s =
      { s with syslog_handler :=
                 s.syslog_handler.map
                   (fun h => { h with address := (s.syslog_host, s.syslog_port) }) } := by
  unfold update_syslog_handler
  obtain ⟨lv, vf, hn, w, bc, lf, sh, sp, so, lfh, slh, la, sa, ll, errs⟩ := s
  cases slh <;> rfl

theorem remove_syslog_handler_eq (s : PaPState) :
    remove_syslog_handler s =
      { s with syslog_attached := s.syslog_handler.isNone && s.syslog_attached } := by
  unfold remove_syslog_handler
  obtain ⟨lv, vf, hn, w, bc, lf, sh, sp, so, lfh, slh, la, sa, ll, errs⟩ := s
  cases slh <;> simp

theorem remove_logfile_handler_eq (s : PaPState) :
    remove_logfile_handler s =
      { s with logfile_attached := s.logfile_handler.isNone && s.logfile_attached } := by
  unfold remove_logfile_handler
  obtain ⟨lv, vf, hn, w, bc, lf, sh, sp, so, lfh, slh, la, sa, ll, errs⟩ := s
  cases lfh <;> simp

theorem update_logfile_formatter_eq (s : PaPState) :
    update_logfile_formatter s =
      { s with logfile_handler :=
                 s.logfile_handler.map
                   (fun h => { h with fmtName := logfile_fmt_name s.logfile_with_hostname }) } := by
  unfold update_logfile_formatter
  obtain ⟨lv, vf, hn, w, bc, lf, sh, sp, so, lfh, slh, la, sa, ll, errs⟩ := s
  cases lfh <;> rfl

theorem update_logfile_handler_eq (s : PaPState) :
    update_logfile_handler s =
      { s with logfile_handler :=
                 s.logfile_handler.map
                   (fun h => { h with level := s.level, baseFilename := s.log_file }) } := by
  unfold update_logfile_handler
  obtain ⟨lv, vf, hn, w, bc, lf, sh, sp, so, lfh, slh, la, sa, ll, errs⟩ := s
  cases lfh with
  | none => rfl
  | some h =>
    obtain ⟨bf, hl, hf, hw, hbc⟩ := h
    dsimp only
    split <;> split <;> simp_all

end PaP

namespace PaP

/-! ### C1: the console threshold tracks the facade level -/

/-- C1.  For every sequence of assignments to the `level` property
(hence for every facade state `s`, reachable or not), after the setter
returns the `sysout` handler's active severity threshold equals the
facade's current level (which is the assigned value). -/
theorem C1_console_threshold_tracks_level (s : PaPState) (v : Int) :
    (set_level v s).sysout_handler.level = (set_level v s).level ∧
    (set_level v s).level = v := by
  simp only [set_level, update_sysout_formatter_eq, update_logger_level_eq,
    update_sysout_level_eq, update_syslog_handler_eq, update_logfile_handler_eq]
  split <;> split <;> split <;> simp

end PaP

namespace PaP

/-! ### C2: console format selection -/

/-- C2 counterexample.  The claim (rich 'logfile' format exactly when
`verbose_fmt` is true or level is in DEBUG/INFO/WARNING; in particular
WARNING with `verbose_fmt = false` selects the rich format) is false
for `src/pap_logger/__init__.py`: on a fresh facade with
`verbose_fmt = false`, assigning `level = WARNING` leaves the console
on the terse `'simple'` format, because `_update_sysout_formatter`
uses the strict comparison `self.level < WARNING`. -/
theorem C2_counterexample_warning_boundary :
    initDefault.verbose_fmt = false ∧
    (set_level WARNING initDefault).level = WARNING ∧
    (set_level WARNING initDefault).sysout_handler.fmtName = "simple" ∧
    ("simple" : String) ≠ "logfile" := by
  refine ⟨rfl, rfl, rfl, ?_⟩
  decide

/-- C2 (amended).  Console format selection is a pure function of
`(level, verbose_fmt)`: after any `level` assignment the console
formatter is `sysout_fmt_name verbose_fmt level`, which in
`src/pap_logger/__init__.py` is the rich `'logfile'` format exactly
when `verbose_fmt` is true or `level < WARNING` (DEBUG, INFO), and the
terse `'simple'` format exactly when `verbose_fmt` is false and
`WARNING ≤ level` (WARNING, ERROR, CRITICAL) — so `level = WARNING`
with `verbose_fmt = false` selects the *terse* format.  The
near-duplicate variant `src/__init__.py` instead uses `<=`, selecting
the rich format at WARNING as the original claim stated. -/
theorem C2_console_format_selection (v : Bool) (l : Int) (s : PaPState) :
    (set_level l (set_verbose_fmt v s)).sysout_handler.fmtName = sysout_fmt_name v l ∧
    (sysout_fmt_name v l = "logfile" ↔ (v = true ∨ l < WARNING)) ∧
    (sysout_fmt_name v l = "simple" ↔ (v = false ∧ WARNING ≤ l)) ∧
    (sysout_fmt_name_v2 v l = "logfile" ↔ (v = true ∨ l ≤ WARNING)) := by
  have hsl : ("simple" : String) ≠ "logfile" := by decide
  have hls : ("logfile" : String) ≠ "simple" := by decide
  have hname : sysout_fmt_name v l = if v = true ∨ l < WARNING then "logfile" else "simple" := by
    unfold sysout_fmt_name
    split <;> split <;> first | rfl | simp_all
  have hname2 : sysout_fmt_name_v2 v l = if v = true ∨ l ≤ WARNING then "logfile" else "simple" := by
    unfold sysout_fmt_name_v2
    split <;> split <;> first | rfl | simp_all
  refine ⟨?_, ?_, ?_, ?_⟩
  · simp only [set_verbose_fmt, set_level, update_sysout_formatter_eq, update_logger_level_eq,
      update_sysout_level_eq, update_syslog_handler_eq, update_logfile_handler_eq]
    split <;> split <;> split <;> simp
  · rw [hname]
    split <;> rename_i h
    · simp [h]
    · simp only [not_or] at h
      simp [hsl, h.1, h.2]
  · rw [hname]
    split <;> rename_i h
    · simp only [hls, false_iff]
      rintro ⟨hv, hge⟩
      rcases h with h | h
      · rw [hv] at h
        exact Bool.false_ne_true h
      · omega
    · simp only [not_or] at h
      simp only [true_iff]
      exact ⟨Bool.not_eq_true v |>.mp h.1, by omega⟩
  · rw [hname2]
    split <;> rename_i h
    · simp [h]
    · simp only [not_or] at h
      simp [hsl, h.1, h.2]

end PaP

namespace PaP

/-! ### C3: the hostname-prefix round trip on the log file name -/

/-- Left-to-right replacement leaves a list untouched when the pattern
occurs nowhere in it, for any amount of fuel. -/
theorem replaceAllAux_no_occurrence (pat rep : List Char) :
    ∀ (fuel : Nat) (s : List Char), ¬ pat <:+: s → replaceAllAux pat rep fuel s = s := by
  intro fuel
  induction fuel with
  | zero =>
    intro s _
    cases s <;> rfl
  | succ fuel ih =>
    intro s hs
    cases s with
    | nil => rfl
    | cons c rest =>
      rw [replaceAllAux]
      rw [if_neg, ih rest]
      · intro hinf
        exact hs (List.infix_cons hinf)
      · rintro ⟨hpre, -⟩
        exact hs <| List.IsPrefix.isInfix hpre

/-- Python's `(pat ++ t).replace(pat, "") == t` whenever `pat` does not
occur in `t`: the leading copy of `pat` is consumed first and the rest
is left alone. -/
theorem replaceAll_append_cancel (pat t : List Char) (hocc : ¬ pat <:+: t) :
    replaceAll pat [] (pat ++ t) = t := by
  have hpat : pat ≠ [] := by
    rintro rfl
    exact hocc List.nil_infix
  obtain ⟨p, ps, rfl⟩ : ∃ p ps, pat = p :: ps := by
    cases pat with
    | nil => exact absurd rfl hpat
    | cons p ps => exact ⟨p, ps, rfl⟩
  rw [replaceAll, List.cons_append, List.length_cons, replaceAllAux]
  rw [if_pos ⟨by rw [← List.cons_append]; exact List.prefix_append _ _, hpat⟩]
  have hdrop : List.drop ((p :: ps).length - 1) (ps ++ t) = t := by
    simp only [List.length_cons, Nat.add_sub_cancel]
    exact List.drop_left ps t
  rw [hdrop, replaceAllAux_no_occurrence _ _ _ _ hocc, List.nil_append]

/-- Stripping the hostname prefix undoes prefixing it, as long as
`"<hostname>_"` does not already occur in the original name. -/
theorem stripName_prefixName (host n : String)
    (hocc : ¬ (host ++ "_").data <:+: n.data) :
    stripName host (prefixName host n) = n := by
  unfold stripName prefixName
  have hdata : (host ++ "_" ++ n).data = (host ++ "_").data ++ n.data := by
    rw [String.data_append]
  rw [hdata, replaceAll_append_cancel _ _ hocc]

end PaP

namespace PaP

/-- The `log_file` setter stores the assigned path unconditionally
(it is stored before the `try` block, so even a failing creation
leaves the property set). -/
theorem set_log_file_some_log_file (env : Env) (p : PPath) (s : PaPState) :
    (set_log_file env (some p) s).log_file = some p := by
  simp only [set_log_file, add_logfile_handler, update_logfile_formatter_eq,
    update_logfile_handler_eq]
  split <;> (try split) <;> (try split) <;> simp

/-- Fields of the facade that the `log_file` setter never touches. -/
theorem set_log_file_frame (env : Env) (v : Option PPath) (s : PaPState) :
    (set_log_file env v s).logfile_with_hostname = s.logfile_with_hostname ∧
    (set_log_file env v s).syslog_handler = s.syslog_handler ∧
    (set_log_file env v s).sysout_handler = s.sysout_handler ∧
    (set_log_file env v s).syslog_attached = s.syslog_attached ∧
    (set_log_file env v s).level = s.level ∧
    (set_log_file env v s).rotWhen = s.rotWhen ∧
    (set_log_file env v s).backup_count = s.backup_count ∧
    (set_log_file env v s).syslog_host = s.syslog_host ∧
    (set_log_file env v s).syslog_port = s.syslog_port ∧
    (set_log_file env v s).verbose_fmt = s.verbose_fmt ∧
    (set_log_file env v s).logger_level = s.logger_level := by
  cases v with
  | none =>
    simp [set_log_file, remove_logfile_handler_eq]
  | some p =>
    simp only [set_log_file, add_logfile_handler, update_logfile_formatter_eq,
      update_logfile_handler_eq]
    split <;> (try split) <;> (try split) <;> simp

end PaP

namespace PaP

/-- C3 (amended).  Starting from `logfile_with_hostname = false` and
`log_file = p`, toggling `logfile_with_hostname` to `true` and back to
`false` restores `log_file` to exactly the original `p` — *provided*
the substring `"<hostname>_"` does not already occur in the original
filename `p.name`.  (Without that proviso the claim is false, because
the setter strips the prefix with `str.replace`, which removes every
occurrence: see the counterexample.)  Both toggles return normally
(`Except.ok`) and the flag is restored to `false`. -/
theorem C3_hostname_prefix_roundtrip (env : Env) (s : PaPState) (p : PPath)
    (hfile : s.log_file = some p) (hflag : s.logfile_with_hostname = false)
    (hocc : ¬ (env.hostname ++ "_").data <:+: p.name.data) :
    ((set_logfile_with_hostname env true s).bind
        (set_logfile_with_hostname env false)).map
      (fun s2 => (s2.log_file, s2.logfile_with_hostname)) = .ok (some p, false) := by
  have hstep1 : set_logfile_with_hostname env true s =
      .ok (update_logfile_formatter
            { set_log_file env (some ⟨p.parent, prefixName env.hostname p.name⟩) s with
                logfile_with_hostname := true }) := by
    simp [set_logfile_with_hostname, hflag, hfile]
  set s1 := update_logfile_formatter
      { set_log_file env (some ⟨p.parent, prefixName env.hostname p.name⟩) s with
          logfile_with_hostname := true } with hs1
  have h1file : s1.log_file = some ⟨p.parent, prefixName env.hostname p.name⟩ := by
    rw [hs1, update_logfile_formatter_eq]
    simpa using set_log_file_some_log_file env _ s
  have h1flag : s1.logfile_with_hostname = true := by
    rw [hs1, update_logfile_formatter_eq]
  have hstrip : stripName env.hostname (prefixName env.hostname p.name) = p.name :=
    stripName_prefixName _ _ hocc
  have hstep2 : set_logfile_with_hostname env false s1 =
      .ok (update_logfile_formatter
            { set_log_file env (some p) s1 with logfile_with_hostname := false }) := by
    simp [set_logfile_with_hostname, h1flag, h1file, hstrip]
  rw [hstep1]
  simp only [Except.bind]
  rw [hstep2]
  simp only [Except.map]
  rw [update_logfile_formatter_eq]
  simp [set_log_file_some_log_file]

/-- Environment for the C3 concrete runs: hostname `"h"`, everything
reachable/writable, rotation spec `"D"` valid (as for the real
`TimedRotatingFileHandler`). -/
def c3Env : Env :=
  { hostname := "h"
    reachable := fun _ _ => true
    validWhen := fun w => w == "D"
    writable := fun _ => true }

/-- A fresh default facade whose log file name already contains the
substring `"h_"` (`hostname = "h"`). -/
def c3State : PaPState :=
  { initDefault with log_file := some ⟨"logs", "h_data.log"⟩ }

/-- C3 counterexample.  With hostname `"h"` and original path
`logs/h_data.log`, toggling `logfile_with_hostname` to `true` and back
to `false` yields `logs/data.log`, not the original: the strip step
`name.replace("h_", "")` removes *every* occurrence of `"h_"`, not
only the prefix that the `true` step added.  So the round trip does
not restore `log_file` for every base path. -/
theorem C3_counterexample_hostname_in_name :
    ((set_logfile_with_hostname c3Env true c3State).bind
        (set_logfile_with_hostname c3Env false)).map (fun s2 => s2.log_file)
      = .ok (some ⟨"logs", "data.log"⟩) ∧
    some (⟨"logs", "data.log"⟩ : PPath) ≠ some (⟨"logs", "h_data.log"⟩ : PPath) := by
  refine ⟨rfl, by decide⟩

/-- A fresh default facade with a log file name not containing
`"h_"`. -/
def c3StateClean : PaPState :=
  { initDefault with log_file := some ⟨"logs", "data.log"⟩ }

/-- Witness for `C3_hostname_prefix_roundtrip` at a concrete input. -/
theorem C3_hostname_prefix_roundtrip_witness :
    ((set_logfile_with_hostname c3Env true c3StateClean).bind
        (set_logfile_with_hostname c3Env false)).map
      (fun s2 => (s2.log_file, s2.logfile_with_hostname))
      = .ok (some ⟨"logs", "data.log"⟩, false) :=
  C3_hostname_prefix_roundtrip c3Env c3StateClean ⟨"logs", "data.log"⟩ rfl rfl (by decide)

end PaP

namespace PaP

/-! ### C4: the log-file enable/disable/enable round trip -/

/-- Environment for the C4 concrete run: everything writable, rotation
spec `"D"` valid. -/
def c4Env : Env :=
  { hostname := "h"
    reachable := fun _ _ => true
    validWhen := fun w => w == "D"
    writable := fun _ => true }

/-- The concrete log path used in the C4 run. -/
def c4Path : PPath := ⟨"/tmp/x", "app.log"⟩

/-- C4 (code bug).  After `log_file = p`, `log_file = None`,
`log_file = p`, no File Sink is attached to the underlying logger:
the first assignment attaches a handler (with the configured rotation
policy); setting `None` removes the handler from the logger but
`_remove_logfile_handler` does not clear `self._logfile_handler`, so
the third assignment takes the update-in-place branch on the detached
handler instead of creating and attaching a new one.  The claim (and
the spec's round-trip property) says a File Sink is attached again;
the code leaves `logfile_attached = false` while the stale handler
reference survives. -/
theorem C4_file_sink_not_reattached :
    (set_log_file c4Env (some c4Path) initDefault).logfile_attached = true ∧
    ((set_log_file c4Env (some c4Path) initDefault).logfile_handler.map
        (fun h => (h.rotWhen, h.backupCount)) = some ("D", 15)) ∧
    (set_log_file c4Env none
        (set_log_file c4Env (some c4Path) initDefault)).logfile_attached = false ∧
    (set_log_file c4Env (some c4Path)
        (set_log_file c4Env none
          (set_log_file c4Env (some c4Path) initDefault))).log_file = some c4Path ∧
    (set_log_file c4Env (some c4Path)
        (set_log_file c4Env none
          (set_log_file c4Env (some c4Path) initDefault))).logfile_handler.isSome = true ∧
    (set_log_file c4Env (some c4Path)
        (set_log_file c4Env none
          (set_log_file c4Env (some c4Path) initDefault))).logfile_attached = false :=
  ⟨rfl, rfl, rfl, rfl, rfl, rfl⟩

/-! ### C5: unreachable syslog host -/

/-- C5.  Assigning an unreachable/unknown `syslog_host` does not raise
(the setter is total in the model because the source catches
`socket.error`): the failure is recorded as an error-level diagnostic,
no Remote Sink is created or attached, and a subsequent assignment of
a reachable host creates and attaches a Remote Sink (at level WARNING,
bound to the new host and the current port). -/
theorem C5_unreachable_syslog_host (env : Env) (s : PaPState) (bad good : String)
    (hbad : env.reachable bad s.syslog_port = false)
    (hgood : env.reachable good s.syslog_port = true)
    (hnone : s.syslog_handler = none) :
    (set_syslog_host env (some bad) s).syslog_handler = none ∧
    (set_syslog_host env (some bad) s).syslog_attached = s.syslog_attached ∧
    (set_syslog_host env (some bad) s).errors = .syslogConnect :: s.errors ∧
    (set_syslog_host env (some good) (set_syslog_host env (some bad) s)).syslog_handler
      = some ⟨(some good, s.syslog_port), WARNING, "syslog"⟩ ∧
    (set_syslog_host env (some good) (set_syslog_host env (some bad) s)).syslog_attached
      = true := by
  have h1 : set_syslog_host env (some bad) s =
      { s with syslog_host := some bad, errors := .syslogConnect :: s.errors } := by
    simp [set_syslog_host, add_syslog_handler, hnone, hbad]
  have h2 : set_syslog_host env (some good)
        ({ s with syslog_host := some bad, errors := .syslogConnect :: s.errors }) =
      { s with syslog_host := some good
               errors := .syslogConnect :: s.errors
               syslog_handler := some ⟨(some good, s.syslog_port), WARNING, "syslog"⟩
               syslog_attached := true } := by
    simp [set_syslog_host, add_syslog_handler, hnone, hgood]
  rw [h1, h2]
  simp [hnone]

/-- Environment for the C5 witness: only host `"good"` is reachable. -/
def c5Env : Env :=
  { hostname := "h"
    reachable := fun h _ => h == "good"
    validWhen := fun w => w == "D"
    writable := fun _ => true }

/-- Witness for `C5_unreachable_syslog_host` at a concrete input. -/
theorem C5_unreachable_syslog_host_witness :
    (set_syslog_host c5Env (some "bad") initDefault).syslog_handler = none ∧
    (set_syslog_host c5Env (some "bad") initDefault).syslog_attached = false ∧
    (set_syslog_host c5Env (some "bad") initDefault).errors = [.syslogConnect] ∧
    (set_syslog_host c5Env (some "good") (set_syslog_host c5Env (some "bad") initDefault)).syslog_handler
      = some ⟨(some "good", 514), WARNING, "syslog"⟩ ∧
    (set_syslog_host c5Env (some "good") (set_syslog_host c5Env (some "bad") initDefault)).syslog_attached
      = true :=
  C5_unreachable_syslog_host c5Env initDefault "bad" "good" rfl rfl rfl

/-! ### C7: toggling the hostname flag with no log file set -/

/-- Environment for the C7 concrete run. -/
def c7Env : Env :=
  { hostname := "h"
    reachable := fun _ _ => true
    validWhen := fun w => w == "D"
    writable := fun _ => true }

/-- C7 (code bug).  On a fresh facade (where `log_file` is `None` and
`logfile_with_hostname` is false), assigning `logfile_with_hostname =
True` raises `AttributeError`: both branches of the setter evaluate
`self.log_file.parent`, i.e. `None.parent`.  The claim (and the spec)
says the toggle succeeds and changes only the stored flag. -/
theorem C7_toggle_without_logfile_raises :
    initDefault.log_file = none ∧
    initDefault.logfile_with_hostname = false ∧
    set_logfile_with_hostname c7Env true initDefault = .error .attributeError :=
  ⟨rfl, rfl, rfl⟩

/-! ### C8: invalid rotation period -/

/-- C8.  If `log_file` is assigned while the configured `when` value is
rejected by `TimedRotatingFileHandler`, the `ValueError` is caught
inside `_add_logfile_handler` (nothing escapes the setter, which is
total in the model): an error diagnostic is logged, no File Sink is
created or attached, and the `log_file` property still returns the
assigned path. -/
theorem C8_invalid_rotation_when (env : Env) (s : PaPState) (p : PPath)
    (hwhen : env.validWhen s.rotWhen = false)
    (hdir : env.writable p.parent = true)
    (hnohdl : s.logfile_handler = none) :
    (set_log_file env (some p) s).logfile_handler = none ∧
    (set_log_file env (some p) s).logfile_attached = s.logfile_attached ∧
    (set_log_file env (some p) s).errors = .invalidRotationWhen :: s.errors ∧
    (set_log_file env (some p) s).log_file = some p := by
  simp [set_log_file, add_logfile_handler, hnohdl, hdir, hwhen]

/-- Environment for the C8 witness: only `"D"` is a valid rotation
spec. -/
def c8Env : Env :=
  { hostname := "h"
    reachable := fun _ _ => true
    validWhen := fun w => w == "D"
    writable := fun _ => true }

/-- A facade constructed with the invalid rotation spec `"X"`. -/
def c8State : PaPState := init NOTSET false false "X" 15

/-- Witness for `C8_invalid_rotation_when` at a concrete input. -/
theorem C8_invalid_rotation_when_witness :
    (set_log_file c8Env (some ⟨"logs", "app.log"⟩) c8State).logfile_handler = none ∧
    (set_log_file c8Env (some ⟨"logs", "app.log"⟩) c8State).logfile_attached = false ∧
    (set_log_file c8Env (some ⟨"logs", "app.log"⟩) c8State).errors = [.invalidRotationWhen] ∧
    (set_log_file c8Env (some ⟨"logs", "app.log"⟩) c8State).log_file = some ⟨"logs", "app.log"⟩ :=
  C8_invalid_rotation_when c8Env c8State ⟨"logs", "app.log"⟩ rfl rfl rfl

/-! ### C9: the verbose_fmt setter's frame -/

/-- C9.  The `verbose_fmt` setter stores the flag and re-applies only
the console sink's format; the console threshold, the facade level,
the File and Remote Sink records, both attachment flags, the logger
level, the stored path/host/port/rotation configuration and the
diagnostics list are all unchanged. -/
theorem C9_verbose_fmt_frame (v : Bool) (s : PaPState) :
    (set_verbose_fmt v s).verbose_fmt = v ∧
    (set_verbose_fmt v s).sysout_handler.fmtName = sysout_fmt_name v s.level ∧
    (set_verbose_fmt v s).sysout_handler.level = s.sysout_handler.level ∧
    (set_verbose_fmt v s).level = s.level ∧
    (set_verbose_fmt v s).logfile_with_hostname = s.logfile_with_hostname ∧
    (set_verbose_fmt v s).rotWhen = s.rotWhen ∧
    (set_verbose_fmt v s).backup_count = s.backup_count ∧
    (set_verbose_fmt v s).log_file = s.log_file ∧
    (set_verbose_fmt v s).syslog_host = s.syslog_host ∧
    (set_verbose_fmt v s).syslog_port = s.syslog_port ∧
    (set_verbose_fmt v s).logfile_handler = s.logfile_handler ∧
    (set_verbose_fmt v s).syslog_handler = s.syslog_handler ∧
    (set_verbose_fmt v s).logfile_attached = s.logfile_attached ∧
    (set_verbose_fmt v s).syslog_attached = s.syslog_attached ∧
    (set_verbose_fmt v s).logger_level = s.logger_level ∧
    (set_verbose_fmt v s).errors = s.errors :=
  ⟨rfl, rfl, rfl, rfl, rfl, rfl, rfl, rfl, rfl, rfl, rfl, rfl, rfl, rfl, rfl, rfl⟩

/-! ### C10: stale remote-handler reference after detach -/

/-- Environment for the C10 concrete run: every host reachable. -/
def c10Env : Env :=
  { hostname := "h"
    reachable := fun _ _ => true
    validWhen := fun w => w == "D"
    writable := fun _ => true }

/-- C10.  Attach a Remote Sink (`syslog_host = "a"`), detach it
(`syslog_host = None`), then assign a reachable host `"b"`:
`_remove_syslog_handler` removed the handler from the logger but left
`self._syslog_handler` set, so the third assignment takes the
update-in-place branch — the stored reference is non-null (its address
updated to `"b"`), yet the handler is not attached to the logger. -/
theorem C10_syslog_stale_reference :
    (set_syslog_host c10Env (some "a") initDefault).syslog_attached = true ∧
    (set_syslog_host c10Env none
        (set_syslog_host c10Env (some "a") initDefault)).syslog_handler.isSome = true ∧
    (set_syslog_host c10Env none
        (set_syslog_host c10Env (some "a") initDefault)).syslog_attached = false ∧
    (set_syslog_host c10Env (some "b")
        (set_syslog_host c10Env none
          (set_syslog_host c10Env (some "a") initDefault))).syslog_handler
      = some ⟨(some "b", 514), WARNING, "syslog"⟩ ∧
    (set_syslog_host c10Env (some "b")
        (set_syslog_host c10Env none
          (set_syslog_host c10Env (some "a") initDefault))).syslog_attached = false :=
  ⟨rfl, rfl, rfl, rfl, rfl⟩

end PaP

namespace PaP

/-! ### C6: the Remote Sink threshold is always WARNING -/

/-- Whenever the facade holds a `SysLogHandler`, its threshold is
`WARNING`. -/
def syslogWarningInv (s : PaPState) : Prop :=
  ∀ h, s.syslog_handler = some h → h.level = WARNING

theorem syslogWarningInv_congr {s s' : PaPState}
    (h : s'.syslog_handler = s.syslog_handler) (hinv : syslogWarningInv s) :
    syslogWarningInv s' := by
  intro hd hh
  exact hinv hd (h ▸ hh)

theorem syslogWarningInv_of_some {s : PaPState} {h0 : SyslogHandler}
    (hh : s.syslog_handler = some h0) (hl : h0.level = WARNING) :
    syslogWarningInv s := by
  intro h g
  rw [hh, Option.some_inj] at g
  rw [← g]
  exact hl

/-- The in-place address update of `_update_syslog_handler` keeps the
handler's level. -/
theorem syslogWarningInv_update_syslog (s : PaPState) (hinv : syslogWarningInv s) :
    syslogWarningInv (update_syslog_handler s) := by
  intro h hh
  rw [update_syslog_handler_eq] at hh
  simp only [Option.map_eq_some'] at hh
  obtain ⟨h0, hh0, rfl⟩ := hh
  exact hinv h0 hh0

theorem syslogWarningInv_cond_update_syslog (t : PaPState) (h : syslogWarningInv t) :
    syslogWarningInv (if t.syslog_handler.isSome then update_syslog_handler t else t) := by
  split
  · exact syslogWarningInv_update_syslog t h
  · exact h

theorem syslogWarningInv_cond_update_logfile (t : PaPState) (h : syslogWarningInv t) :
    syslogWarningInv (if t.logfile_handler.isSome then update_logfile_handler t else t) := by
  split
  · exact syslogWarningInv_congr (by rw [update_logfile_handler_eq]) h
  · exact h

theorem syslogWarningInv_set_level (v : Int) (s : PaPState) (hinv : syslogWarningInv s) :
    syslogWarningInv (set_level v s) := by
  simp only [set_level]
  apply syslogWarningInv_cond_update_logfile
  apply syslogWarningInv_cond_update_syslog
  apply syslogWarningInv_congr _ hinv
  simp [update_sysout_formatter_eq, update_logger_level_eq, update_sysout_level_eq]

theorem syslogWarningInv_set_verbose_fmt (v : Bool) (s : PaPState) (hinv : syslogWarningInv s) :
    syslogWarningInv (set_verbose_fmt v s) :=
  syslogWarningInv_congr (by simp [set_verbose_fmt, update_sysout_formatter_eq]) hinv

theorem syslogWarningInv_set_log_file (env : Env) (v : Option PPath) (s : PaPState)
    (hinv : syslogWarningInv s) : syslogWarningInv (set_log_file env v s) :=
  syslogWarningInv_congr (set_log_file_frame env v s).2.1 hinv

/-- A successful `logfile_with_hostname` assignment never touches the
syslog handler reference. -/
theorem set_logfile_with_hostname_ok_syslog (env : Env) (v : Bool) (s s' : PaPState)
    (h : set_logfile_with_hostname env v s = .ok s') :
    s'.syslog_handler = s.syslog_handler := by
  unfold set_logfile_with_hostname at h
  split at h
  · split at h
    · cases h
    · cases h
      rw [update_logfile_formatter_eq]
      split <;> exact (set_log_file_frame _ _ _).2.1
  · cases h
    rfl

theorem syslogWarningInv_set_logfile_with_hostname (env : Env) (v : Bool) (s : PaPState)
    (hinv : syslogWarningInv s) :
    syslogWarningInv
      (match set_logfile_with_hostname env v s with
       | .ok s' => s'
       | .error _ => s) := by
  cases hres : set_logfile_with_hostname env v s with
  | error e => exact hinv
  | ok s' =>
    exact syslogWarningInv_congr (set_logfile_with_hostname_ok_syslog env v s s' hres) hinv

theorem syslogWarningInv_set_syslog_host (env : Env) (value : Option String) (s : PaPState)
    (hinv : syslogWarningInv s) : syslogWarningInv (set_syslog_host env value s) := by
  cases value with
  | none =>
    apply syslogWarningInv_congr _ hinv
    simp [set_syslog_host, remove_syslog_handler_eq]
  | some host =>
    simp only [set_syslog_host]
    split
    · cases hr : env.reachable host s.syslog_port with
      | true =>
        have hok : add_syslog_handler env { s with syslog_host := some host } =
            .ok { s with syslog_host := some host
                         syslog_handler := some ⟨(some host, s.syslog_port), WARNING, "syslog"⟩
                         syslog_attached := true } := by
          simp [add_syslog_handler, hr]
        rw [hok]
        exact syslogWarningInv_of_some rfl rfl
      | false =>
        have herr : add_syslog_handler env { s with syslog_host := some host } = .error () := by
          simp [add_syslog_handler, hr]
        rw [herr]
        exact syslogWarningInv_congr rfl hinv
    · exact syslogWarningInv_update_syslog _ (syslogWarningInv_congr rfl hinv)

theorem syslogWarningInv_set_syslog_port (v : Int) (s : PaPState)
    (hinv : syslogWarningInv s) : syslogWarningInv (set_syslog_port v s) := by
  simp only [set_syslog_port]
  split
  · apply syslogWarningInv_update_syslog
    exact syslogWarningInv_congr rfl hinv
  · exact syslogWarningInv_congr rfl hinv

theorem syslogWarningInv_apply (env : Env) (op : Op) (s : PaPState)
    (hinv : syslogWarningInv s) : syslogWarningInv (op.apply env s) := by
  cases op with
  | setLevel v => exact syslogWarningInv_set_level v s hinv
  | setVerboseFmt v => exact syslogWarningInv_set_verbose_fmt v s hinv
  | setLogfileWithHostname v => exact syslogWarningInv_set_logfile_with_hostname env v s hinv
  | setLogFile p => exact syslogWarningInv_set_log_file env p s hinv
  | setSyslogHost h => exact syslogWarningInv_set_syslog_host env h s hinv
  | setSyslogPort v => exact syslogWarningInv_set_syslog_port v s hinv

theorem syslogWarningInv_run (env : Env) (ops : List Op) :
    ∀ s, syslogWarningInv s → syslogWarningInv (run env ops s) := by
  induction ops with
  | nil => intro s h; exact h
  | cons op ops ih =>
    intro s h
    exact ih _ (syslogWarningInv_apply env op s h)

/-- A freshly constructed facade holds no syslog handler. -/
theorem init_syslog_handler (level : Int) (vf hn : Bool) (w : String) (bc : Int) :
    (init level vf hn w bc).syslog_handler = none := by
  unfold init
  simp [set_level, update_sysout_formatter_eq, update_logger_level_eq,
    update_sysout_level_eq, update_syslog_handler_eq, update_logfile_handler_eq]

theorem syslogWarningInv_init (level : Int) (vf hn : Bool) (w : String) (bc : Int) :
    syslogWarningInv (init level vf hn w bc) := by
  intro h hh
  rw [init_syslog_handler] at hh
  cases hh

/-- C6.  In every state reachable through any sequence of property
assignments from a freshly constructed facade, whenever the facade
holds a Remote Sink handler its severity threshold is `WARNING`:
`_add_syslog_handler` creates it at `WARNING`, and no later operation
— in particular no `level` assignment, whose `_update_syslog_handler`
only rewrites the address tuple — ever changes that threshold. -/
theorem C6_remote_sink_level_always_warning (env : Env) (ops : List Op)
    (level : Int) (vf hn : Bool) (w : String) (bc : Int) :
    syslogWarningInv (run env ops (init level vf hn w bc)) :=
  syslogWarningInv_run env ops _ (syslogWarningInv_init level vf hn w bc)

/-- Environment for the C6 witness. -/
def c6Env : Env :=
  { hostname := "h"
    reachable := fun _ _ => true
    validWhen := fun w => w == "D"
    writable := fun _ => true }

/-- Witness for `C6_remote_sink_level_always_warning`: attach a Remote
Sink and then assign a new level; the handler held by the resulting
state has threshold WARNING. -/
theorem C6_remote_sink_level_always_warning_witness :
    (run c6Env [Op.setSyslogHost (some "collector"), Op.setLevel DEBUG]
        (init NOTSET false false "D" 15)).syslog_handler
      = some ⟨(some "collector", 514), WARNING, "syslog"⟩ ∧
    (⟨(some "collector", 514), WARNING, "syslog"⟩ : SyslogHandler).level = WARNING :=
  ⟨rfl,
   C6_remote_sink_level_always_warning c6Env
     [Op.setSyslogHost (some "collector"), Op.setLevel DEBUG] NOTSET false false "D" 15
     ⟨(some "collector", 514), WARNING, "syslog"⟩ rfl⟩

end PaP
